import Mathlib

/-!
# Verification of `discord/poll.py` (poll data model and network-call wrappers)

Shallow embedding of the classes `PollMedia`, `PollAnswerCount`, `PollAnswer`
and `Poll` from `src/discord/poll.py`.  Python dictionaries that carry the
wire payloads are embedded as Lean structures; optional dictionary keys are
`Option` fields; `datetime` values are integers (a timestamp); the two
asynchronous methods (`users`, `end`) are embedded as pure functions that
return a description of their outcome (which error they raise synchronously,
or which HTTP request they issue), since the errors are raised before the
network boundary is reached.

External values from the repository that are not under `src/`
(`PartialEmoji` from `discord/emoji.py`, `PollLayoutType`/`try_enum` from
`discord/enums.py`) are modelled from the spec where noted.
-/

set_option autoImplicit false

namespace PollSpec

/-- Modelled from the spec: `EmojiRef`, "`{ id: optional integer, name: string }`.
Represents either a custom emoji (id present) or a standard unicode emoji
(id absent)."  This stands in for `discord/emoji.py`'s `PartialEmoji`, which
is repository code not present under `src/`. -/
structure PartialEmoji where
  id : Option Int
  name : String
  deriving Repr, DecidableEq

/-- Modelled from the spec: the string rendering of an emoji reference used by
the serializer — the spec's emoji conversion ("if only a name (standard emoji),
serialize name alone") identifies the serialized `name` with the emoji's name. -/
def PartialEmoji.toStr (e : PartialEmoji) : String := e.name

/-- Modelled from the spec: `layout_type` is "a closed set of known variants
plus a fallback unrecognized(rawValue) variant", with the default variant
having wire value 1.  Stands in for `discord/enums.py`'s `PollLayoutType`. -/
inductive PollLayoutType where
  | default
  | unknown (raw : Int)
  deriving Repr, DecidableEq

/-- Wire value of a layout variant (`PollLayoutType.value` in the source). -/
def PollLayoutType.value : PollLayoutType → Int
  | .default => 1
  | .unknown raw => raw

/-- Modelled from the spec: `try_enum` "default value 1 mapped through an enum
lookup, unknown values preserved as raw" (`discord/enums.py`). -/
def try_enum (v : Int) : PollLayoutType :=
  if v = 1 then .default else .unknown v

/-- The emoji payload `{id?, name}` sub-dictionary of a `poll_media` payload
(`PollEmojiPayload` in the source's type stubs). -/
structure PollEmojiPayload where
  id : Option Int
  name : String
  deriving Repr, DecidableEq

/-- The `poll_media` payload dictionary `{text, emoji?}`
(`PollMediaPayload` in the source's type stubs). -/
structure PollMediaPayload where
  text : String
  emoji : Option PollEmojiPayload
  deriving Repr, DecidableEq

/-- The inbound answer payload `{answer_id, poll_media}`
(`PollAnswerWithIDPayload` in the source's type stubs). -/
structure PollAnswerWithIDPayload where
  answer_id : Int
  poll_media : PollMediaPayload
  deriving Repr, DecidableEq

/-- `class PollMedia(NamedTuple)`: `text: str`, `emoji: Optional[PollEmojiPayload]`. -/
structure PollMedia where
  text : String
  emoji : Option PollEmojiPayload
  deriving Repr, DecidableEq

/-- The identity of a message a poll is attached to: what the network-calling
methods read from it (`self._message.channel.id` and `self._message.id`).
The attached `ConnectionState` always accompanies the message
(`message._state`), so it carries no separate data here. -/
structure Message where
  channelId : Nat
  messageId : Nat
  deriving Repr, DecidableEq

/-- One entry of `results.answer_counts`: `{id, me_voted, count}`
(`PollAnswerCountPayload` in the source's type stubs). -/
structure PollAnswerCountPayload where
  id : Int
  me_voted : Bool
  count : Int
  deriving Repr, DecidableEq

/-- `class PollAnswerCount`: fields set by `__init__` from a payload.  Its
constructor takes `state` and `message` as required keyword arguments, so a
tally always has a backing message. -/
structure PollAnswerCount where
  message : Message
  id : Int
  me_voted : Bool
  count : Int
  deriving Repr, DecidableEq

/-- `PollAnswerCount.__init__`. -/
def PollAnswerCount.init (message : Message) (data : PollAnswerCountPayload) :
    PollAnswerCount :=
  { message := message, id := data.id, me_voted := data.me_voted, count := data.count }

/-- Outcome of a voter-listing call, up to the network boundary: either one of
the two synchronous errors, or the HTTP request
`get_poll_answer_voters(channel_id, message_id, answer_id, after, limit)`
that the method issues. -/
inductive UsersOutcome where
  | unattachedError
  | invalidArgError
  | request (channelId : Nat) (messageId : Nat) (answerId : Int)
      (after : Option Nat) (limit : Int)
  deriving Repr, DecidableEq

/-- `PollAnswerCount.users`: issues the request directly; the source performs
no message check and no `limit` validation in this method. -/
def PollAnswerCount.users (c : PollAnswerCount) (after : Option Nat)
    (limit : Int) : UsersOutcome :=
  .request c.message.channelId c.message.messageId c.id after limit

/-- `class PollAnswer`: `media`, `id`, and the optional back-references
`_message` / `_state`.  `__init__` sets `_state = message._state if message
else None`, so the state is present exactly when the message is. -/
structure PollAnswer where
  media : PollMedia
  id : Int
  message : Option Message
  deriving Repr, DecidableEq

/-- `PollAnswer.__init__(data, message)`. -/
def PollAnswer.init (data : PollAnswerWithIDPayload) (message : Option Message) :
    PollAnswer :=
  { media := { text := data.poll_media.text, emoji := data.poll_media.emoji },
    id := data.answer_id,
    message := message }

/-- The `emoji` argument of `PollAnswer.from_params` / `Poll.add_answer`:
`Union[Emoji, PartialEmoji, str]` (`Emoji` and `PartialEmoji` both expose
`.id` and a string rendering, so one constructor covers both). -/
inductive EmojiInput where
  | obj (e : PartialEmoji)
  | str (s : String)
  deriving Repr, DecidableEq

/-- Python truthiness of an `emoji` argument: emoji objects are truthy, a
string is truthy iff non-empty (`if emoji:` in `from_params`). -/
def EmojiInput.truthy : EmojiInput → Bool
  | .obj _ => true
  | .str s => s ≠ ""

/-- `emoji.id if isinstance(emoji, (PartialEmoji, Emoji)) else None`. -/
def EmojiInput.emojiId : EmojiInput → Option Int
  | .obj e => e.id
  | .str _ => none

/-- `str(emoji)`. -/
def EmojiInput.toStr : EmojiInput → String
  | .obj e => e.toStr
  | .str s => s

/-- `PollAnswer.from_params(id, text, emoji, message)`. -/
def PollAnswer.from_params (id : Int) (text : String)
    (emoji : Option EmojiInput) (message : Option Message) : PollAnswer :=
  let poll_media : PollMediaPayload :=
    match emoji with
    | some e =>
        if e.truthy then
          { text := text, emoji := some { id := e.emojiId, name := e.toStr } }
        else
          { text := text, emoji := none }
    | none => { text := text, emoji := none }
  PollAnswer.init { answer_id := id, poll_media := poll_media } message

/-- `PollAnswer.text` property. -/
def PollAnswer.text (a : PollAnswer) : String := a.media.text

/-- `PollAnswer.emoji` property: builds a `PartialEmoji` from the stored
emoji payload, or `None`.  (The guard `if self.media.emoji:` is dictionary
truthiness; the payload dictionary always carries a `name` key, hence is
non-empty, so presence alone decides it.) -/
def PollAnswer.emoji (a : PollAnswer) : Option PartialEmoji :=
  match a.media.emoji with
  | some ep => some { name := ep.name, id := ep.id }
  | none => none

/-- The outbound emoji dictionary written by `PollAnswer._to_dict`:
`{'name': str(emoji)}` plus `'id'` when the id is truthy. -/
structure OutEmoji where
  name : String
  id : Option Int
  deriving Repr, DecidableEq

/-- The outbound `poll_media` dictionary written by `PollAnswer._to_dict`. -/
structure OutMedia where
  text : String
  emoji : Option OutEmoji
  deriving Repr, DecidableEq

/-- `PollAnswer._to_dict`: emits `text`, and when `self.emoji` is not `None`
an emoji dictionary with `name = str(self.emoji)` and the id only when
`self.emoji.id` is truthy (`None` and `0` are both falsy). -/
def PollAnswer.to_dict (a : PollAnswer) : OutMedia :=
  match a.emoji with
  | none => { text := a.text, emoji := none }
  | some e =>
      { text := a.text,
        emoji := some
          { name := e.toStr,
            id := match e.id with
                  | some i => if i ≠ 0 then some i else none
                  | none => none } }

/-- `PollAnswer.users(after, limit)`: raises `RuntimeError` when no message
(equivalently no state) is attached, then `ValueError` when `limit` is
outside `[0, 100]`, and only then issues the HTTP request. -/
def PollAnswer.users (a : PollAnswer) (after : Option Nat) (limit : Int) :
    UsersOutcome :=
  match a.message with
  | none => .unattachedError
  | some m =>
      if 0 > limit ∨ limit > 100 then .invalidArgError
      else .request m.channelId m.messageId a.id after limit

/-- The `question` payload dictionary `{text}`. -/
structure QuestionPayload where
  text : String
  deriving Repr, DecidableEq

/-- The `results` payload dictionary `{is_finalized, answer_counts}`. -/
structure ResultsPayload where
  is_finalized : Bool
  answer_counts : List PollAnswerCountPayload
  deriving Repr, DecidableEq

/-- The inbound poll payload (`PollWithExpiryPayload` in the source's type
stubs): `question`, `answers`, the optional keys `allow_multiselect`,
`layout_type` and `results`, and the `expiry` timestamp.  The source parses
`expiry` with `datetime.fromisoformat`; the embedding carries the resulting
timestamp directly (ISO-8601 decoding is an external collaborator). -/
structure PollWithExpiryPayload where
  question : QuestionPayload
  answers : List PollAnswerWithIDPayload
  allow_multiselect : Option Bool
  expiry : Int
  layout_type : Option Int
  results : Option ResultsPayload
  deriving Repr, DecidableEq

/-- `class Poll`: the slots set by `__init__` / `_from_data`.  Fields with a
leading underscore in the source are rendered without it; `stateAttached`
stands for whether `_state` is set (`_state` carries no data relevant to the
embedded behaviour beyond its presence). -/
structure Poll where
  question : String
  duration : Int
  multiselect : Bool
  layout_type : PollLayoutType
  answersList : List PollAnswer
  message : Option Message
  stateAttached : Bool
  finalized : Bool
  counts : Option (List PollAnswerCount)
  expiry : Int
  deriving Repr, DecidableEq

/-- `Poll.__init__(question, duration, multiselect, layout_type)`: the clock
reading `utils.utcnow()` is the explicit parameter `now` (a timestamp in
seconds); `timedelta(hours=duration)` is `duration * 3600` seconds. -/
def Poll.init (question : String) (duration : Int) (multiselect : Bool)
    (layout_type : PollLayoutType) (now : Int) : Poll :=
  { question := question,
    answersList := [],
    duration := duration,
    multiselect := multiselect,
    layout_type := layout_type,
    message := none,
    stateAttached := false,
    finalized := false,
    counts := none,
    expiry := now + duration * 3600 }

/-- `Poll.answers` property: `self._answers.copy()` — same contents as the
backing list (the aliasing aspect of the copy is modelled separately by the
store-based embedding below). -/
def Poll.answers (p : Poll) : List PollAnswer := p.answersList

/-- `Poll._from_data(data, message, state)`: builds the poll through
`cls(duration=1, ...)` at clock reading `now`, then overwrites `_answers`,
`_message`, `_state` and `_expiry`, and parses the optional `results`
section. -/
def Poll.from_data (data : PollWithExpiryPayload) (message : Message)
    (now : Int) : Poll :=
  let answers := data.answers.map (fun a => PollAnswer.init a (some message))
  let multiselect := data.allow_multiselect.getD false
  let expiry := data.expiry
  let layout_type := try_enum (data.layout_type.getD 1)
  let question := data.question.text
  let self := Poll.init question 1 multiselect layout_type now
  let self := { self with
    answersList := answers,
    message := some message,
    stateAttached := true,
    expiry := expiry }
  match data.results with
  | some results =>
      { self with
        finalized := results.is_finalized,
        counts := some (results.answer_counts.map (PollAnswerCount.init message)) }
  | none => self

/-- One outbound answer entry `{'poll_media': ...}` of `Poll._to_dict`: the
entry carries only the media dictionary — the structure has no id field. -/
structure OutAnswer where
  poll_media : OutMedia
  deriving Repr, DecidableEq

/-- The outbound poll payload written by `Poll._to_dict`. -/
structure PollOutPayload where
  allow_multiselect : Bool
  question : QuestionPayload
  duration : Int
  layout_type : Int
  answers : List OutAnswer
  deriving Repr, DecidableEq

/-- `Poll._to_dict`. -/
def Poll.to_dict (p : Poll) : PollOutPayload :=
  { allow_multiselect := p.multiselect,
    question := { text := p.question },
    duration := p.duration,
    layout_type := p.layout_type.value,
    answers := p.answers.map (fun a => { poll_media := a.to_dict }) }

/-- `Poll.answer_counts` property: `if self._counts: return self._counts.copy()`
— Python list truthiness makes an empty `_counts` fall through to `None`. -/
def Poll.answer_counts (p : Poll) : Option (List PollAnswerCount) :=
  match p.counts with
  | some cs => if cs.isEmpty then none else some cs
  | none => none

/-- `Poll.is_finalized()`. -/
def Poll.is_finalized (p : Poll) : Bool := p.finalized

/-- `Poll.add_answer(text, emoji)`: appends
`PollAnswer.from_params(id=len(self.answers) + 1, ...)` to `_answers` and
returns `self` — the returned poll is the mutated poll itself, embedded as
the updated record being the function's value. -/
def Poll.add_answer (p : Poll) (text : String) (emoji : Option EmojiInput) :
    Poll :=
  let answer := PollAnswer.from_params ((p.answers.length : Int) + 1) text
    emoji p.message
  { p with answersList := p.answersList ++ [answer] }

/-- Lookup of a normalized (already non-negative-based) Python index:
`IndexError` — an index outside `[0, len)` — is rendered as `none`. -/
def pyIndexNorm {α : Type} (l : List α) (j : Int) : Option α :=
  if 0 ≤ j ∧ j < (l.length : Int) then l[j.toNat]? else none

/-- Python list subscripting `l[i]` on an `int` index, with `IndexError`
rendered as `none`: a negative index addresses from the end. -/
def pyIndex {α : Type} (l : List α) (i : Int) : Option α :=
  if i < 0 then pyIndexNorm l ((l.length : Int) + i) else pyIndexNorm l i

/-- `Poll.get_answer(id)`: `None` when `id > len(self.answers)`, otherwise
`self.answers[id - 1]` with a caught `IndexError` (hence Python's
negative-index semantics for `id - 1 < 0`). -/
def Poll.get_answer (p : Poll) (id : Int) : Option PollAnswer :=
  if id > (p.answers.length : Int) then none
  else pyIndex p.answers (id - 1)

/-- Outcome of `Poll.end()`, up to the network boundary: the synchronous
unattached-message error, or the HTTP request
`end_poll(channel_id, message_id)`. -/
inductive EndOutcome where
  | unattachedError
  | request (channelId : Nat) (messageId : Nat)
  deriving Repr, DecidableEq

/-- `Poll.end()`: raises `RuntimeError` when `self._message` is `None`,
otherwise issues the HTTP request. -/
def Poll.end_ (p : Poll) : EndOutcome :=
  match p.message with
  | none => .unattachedError
  | some m => .request m.channelId m.messageId

/-- `n` chained `add_answer` calls (each call returns the poll itself, so the
chain is a left fold of `add_answer` over the parameter list). -/
def Poll.addAnswers (p : Poll) (ps : List (String × Option EmojiInput)) :
    Poll :=
  ps.foldl (fun q pr => q.add_answer pr.1 pr.2) p

/-- The answers that chained `add_answer` calls append when the poll already
holds `k` answers and its message back-reference is `msg`. -/
def expectedAnswers (msg : Option Message) :
    Nat → List (String × Option EmojiInput) → List PollAnswer
  | _, [] => []
  | k, pr :: ps =>
      PollAnswer.from_params ((k : Int) + 1) pr.1 pr.2 msg ::
        expectedAnswers msg (k + 1) ps

/-- `data` with every answer's `answer_id` replaced through `f` (used to state
that the outbound payload is independent of the inbound answer ids). -/
def PollWithExpiryPayload.withAnswerIds (data : PollWithExpiryPayload)
    (f : Int → Int) : PollWithExpiryPayload :=
  { data with
    answers := data.answers.map (fun a => { a with answer_id := f a.answer_id }) }

/-!
## Store-based embedding of list aliasing

The `answers` / `answer_counts` accessors return `list.copy()`.  What the
copy buys the caller — mutating the returned list does not touch the poll's
backing list — is about object identity, so it is embedded with an explicit
store of Python list objects: a reference is an index into the store,
`.copy()` allocates a fresh cell holding the same elements, and an in-place
mutation overwrites one cell. -/

/-- A store of Python list objects holding elements of type `α`; a reference
to a list object is an index into the store. -/
abbrev ListStore (α : Type) : Type := List (List α)

/-- Contents of the list object behind reference `r`. -/
def ListStore.read {α : Type} (s : ListStore α) (r : Nat) : List α :=
  (s[r]?).getD []

/-- Allocate a fresh list object with contents `l`; returns the new store and
the fresh reference. -/
def ListStore.alloc {α : Type} (s : ListStore α) (l : List α) :
    ListStore α × Nat :=
  (s ++ [l], s.length)

/-- In-place mutation of the list object behind `r` (covers `append`, item
assignment, `clear`, ... — any contents the caller leaves behind). -/
def ListStore.write {α : Type} (s : ListStore α) (r : Nat) (l : List α) :
    ListStore α :=
  s.set r l

/-- The heap view of a `Poll`'s two backing lists: `_answers` is a list
object, `_counts` is a list object or `None`. -/
structure PollRefs where
  answersRef : Nat
  countsRef : Option Nat
  deriving Repr, DecidableEq

/-- `Poll.answers` over the store: `return self._answers.copy()` — reads the
backing list and allocates a fresh list object with the same contents. -/
def PollRefs.answersAccessor (p : PollRefs) (s : ListStore PollAnswer) :
    ListStore PollAnswer × Nat :=
  s.alloc (s.read p.answersRef)

/-- `Poll.answer_counts` over the store: `if self._counts: return
self._counts.copy()` / `return None` — a fresh copy when the backing list
exists and is non-empty, `None` otherwise. -/
def PollRefs.answerCountsAccessor (p : PollRefs)
    (s : ListStore PollAnswerCount) : ListStore PollAnswerCount × Option Nat :=
  match p.countsRef with
  | none => (s, none)
  | some r =>
      if (s.read r).isEmpty then (s, none)
      else
        let a := s.alloc (s.read r)
        (a.1, some a.2)

/-!
## Concrete fixtures used by counterexamples and witnesses -/

/-- A concrete attached message. -/
def exMessage : Message := { channelId := 10, messageId := 20 }

/-- A concrete tally (`PollAnswerCount`), as parsed from
`{id: 1, me_voted: true, count: 3}` on `exMessage`. -/
def exTally : PollAnswerCount :=
  PollAnswerCount.init exMessage { id := 1, me_voted := true, count := 3 }

/-- A concrete answer with an attached message. -/
def exAnswerAttached : PollAnswer :=
  PollAnswer.from_params 1 "A" none (some exMessage)

/-- A locally built poll with two answers `"A"`, `"B"` (ids 1 and 2). -/
def exPoll2 : Poll :=
  ((Poll.init "Q" 1 false .default 0).add_answer "A" none).add_answer "B" none

/-- A concrete store holding one two-element answers list. -/
def exStoreA : ListStore PollAnswer :=
  [[PollAnswer.from_params 1 "A" none none,
    PollAnswer.from_params 2 "B" none none]]

/-- A concrete store holding one one-element counts list. -/
def exStoreC : ListStore PollAnswerCount := [[exTally]]

/-- A poll's heap view pointing at cell 0 of both stores. -/
def exRefs : PollRefs := { answersRef := 0, countsRef := some 0 }

/-- An inbound payload whose single answer carries an emoji with id `0`. -/
def exPayloadZeroEmoji : PollWithExpiryPayload :=
  { question := { text := "Q" },
    answers := [{ answer_id := 1,
                  poll_media := { text := "A",
                                  emoji := some { id := some 0, name := "x" } } }],
    allow_multiselect := some false,
    expiry := 100,
    layout_type := some 1,
    results := none }

/-- An inbound payload with a custom-emoji answer (nonzero id), a plain
answer, and a results section. -/
def exPayloadFull : PollWithExpiryPayload :=
  { question := { text := "Pick one" },
    answers := [{ answer_id := 1,
                  poll_media := { text := "A",
                                  emoji := some { id := some 5, name := "x" } } },
                { answer_id := 2,
                  poll_media := { text := "B", emoji := none } }],
    allow_multiselect := some false,
    expiry := 100,
    layout_type := some 1,
    results := some { is_finalized := true,
                      answer_counts := [{ id := 1, me_voted := true, count := 3 }] } }

/-- An inbound payload whose results section has an empty `answer_counts`. -/
def exPayloadEmptyCounts : PollWithExpiryPayload :=
  { question := { text := "Q" },
    answers := [],
    allow_multiselect := none,
    expiry := 100,
    layout_type := none,
    results := some { is_finalized := true, answer_counts := [] } }

/-!
## Theorems -/

/-- **C1** counterexample: on the concrete tally `exTally`, calling `users`
with `limit = -1` does not fail with the invalid-argument error — it issues
the voter-list network request, so the claimed contract match with
`PollAnswer.users` fails. -/
theorem C1_counterexample :
    PollAnswerCount.users exTally none (-1) =
      UsersOutcome.request 10 20 1 none (-1) ∧
    PollAnswerCount.users exTally none (-1) ≠ UsersOutcome.invalidArgError := by
  refine ⟨rfl, ?_⟩
  decide

/-- **C1** (amended): `PollAnswerCount.users` shares `PollAnswer.users`'
endpoint shape (the same voter-list request, scoped by this tally's answer
id) but performs none of its validation: for every tally, every `after` and
every `limit` — including `-1` and `101` — it directly issues the request,
and neither the invalid-argument nor the unattached-resource error can occur
(a tally always has a backing message by construction). -/
theorem C1_tally_users_no_validation (c : PollAnswerCount) (after : Option Nat)
    (limit : Int) :
    c.users after limit =
      UsersOutcome.request c.message.channelId c.message.messageId c.id
        after limit ∧
    c.users after limit ≠ UsersOutcome.invalidArgError ∧
    c.users after limit ≠ UsersOutcome.unattachedError := by
  refine ⟨rfl, ?_, ?_⟩ <;> simp [PollAnswerCount.users]

/-- **C2** (code bug): on the two-answer poll `exPoll2`, `get_answer 0`
returns the answer with id 2 — Python's negative indexing turns
`self.answers[-1]` into the last answer — instead of the `None` the spec
requires for every `k ≤ 0`; out-of-range ids such as `3` and `-2` do return
`None`. -/
theorem C2_get_answer_zero_bug :
    exPoll2.get_answer 0 = some (PollAnswer.from_params 2 "B" none none) ∧
    (exPoll2.get_answer 0).map PollAnswer.id = some 2 ∧
    exPoll2.get_answer 3 = none ∧
    exPoll2.get_answer (-2) = none :=
  ⟨rfl, rfl, rfl, rfl⟩

/-- **C5**: with no attached message, `PollAnswer.users` and `Poll.end` both
fail with the unattached-resource error: the outcome is the synchronous
error, never a network request. -/
theorem C5_unattached_errors (a : PollAnswer) (p : Poll) (after : Option Nat)
    (limit : Int) (ha : a.message = none) (hp : p.message = none) :
    a.users after limit = UsersOutcome.unattachedError ∧
    p.end_ = EndOutcome.unattachedError := by
  constructor
  · simp only [PollAnswer.users, ha]
  · simp only [Poll.end_, hp]

/-- **C5** witness: a freshly built answer and a freshly built poll have no
message attached, and both operations fail with the unattached error. -/
theorem C5_witness :
    (PollAnswer.from_params 1 "A" none none).users none 25 =
      UsersOutcome.unattachedError ∧
    (Poll.init "Q" 1 false .default 0).end_ = EndOutcome.unattachedError :=
  C5_unattached_errors (PollAnswer.from_params 1 "A" none none)
    (Poll.init "Q" 1 false .default 0) none 25 rfl rfl

/-- **C6**: for every duration in `{1,4,8,24,72,168}`, a poll built via the
constructor at clock reading `now` has expiry `now + d` hours, an empty
answer list, no attached message or state, `is_finalized() = false` and
`answer_counts = None`. -/
theorem C6_constructor_state (q : String) (d : Int) (ms : Bool)
    (lt : PollLayoutType) (now : Int)
    (hd : d = 1 ∨ d = 4 ∨ d = 8 ∨ d = 24 ∨ d = 72 ∨ d = 168) :
    (Poll.init q d ms lt now).expiry = now + d * 3600 ∧
    (Poll.init q d ms lt now).answersList = [] ∧
    (Poll.init q d ms lt now).message = none ∧
    (Poll.init q d ms lt now).stateAttached = false ∧
    (Poll.init q d ms lt now).is_finalized = false ∧
    (Poll.init q d ms lt now).answer_counts = none :=
  ⟨rfl, rfl, rfl, rfl, rfl, rfl⟩

/-- **C6** witness: the constructor at duration 4 and clock reading 1000. -/
theorem C6_constructor_state_witness :
    (Poll.init "Q" 4 false .default 1000).expiry = 1000 + 4 * 3600 ∧
    (Poll.init "Q" 4 false .default 1000).answersList = [] ∧
    (Poll.init "Q" 4 false .default 1000).message = none ∧
    (Poll.init "Q" 4 false .default 1000).stateAttached = false ∧
    (Poll.init "Q" 4 false .default 1000).is_finalized = false ∧
    (Poll.init "Q" 4 false .default 1000).answer_counts = none :=
  C6_constructor_state "Q" 4 false .default 1000 (Or.inr (Or.inl rfl))

/-- **C7**: on an answer with an attached message, a `limit` outside
`[0, 100]` makes `users` fail with the invalid-argument error before any
request is issued. -/
theorem C7_limit_validation (a : PollAnswer) (m : Message) (after : Option Nat)
    (limit : Int) (hm : a.message = some m) (hl : limit < 0 ∨ 100 < limit) :
    a.users after limit = UsersOutcome.invalidArgError := by
  simp only [PollAnswer.users, hm]
  rw [if_pos]
  rcases hl with h | h
  · exact Or.inl h
  · exact Or.inr h

/-- **C7** witness: the attached answer `exAnswerAttached` with
`limit = -1`. -/
theorem C7_limit_validation_witness :
    exAnswerAttached.users none (-1) = UsersOutcome.invalidArgError :=
  C7_limit_validation exAnswerAttached exMessage none (-1) rfl
    (Or.inl (by decide))

/-- **C9**: every poll reconstructed from a payload has `duration = 1` (the
payload path constructs the poll with the fixed duration 1 and only
overrides the expiry), so serializing a received poll always emits
`duration = 1`. -/
theorem C9_received_duration_one (data : PollWithExpiryPayload) (m : Message)
    (now : Int) :
    (Poll.from_data data m now).duration = 1 ∧
    (Poll.from_data data m now).to_dict.duration = 1 := by
  have h : (Poll.from_data data m now).duration = 1 := by
    unfold Poll.from_data
    cases data.results <;> rfl
  exact ⟨h, h⟩

/-- **C10**: a payload whose results section carries an empty `answer_counts`
list yields a poll whose internal `_counts` is the empty list, and the
`answer_counts` accessor reports that as `None`, never as an empty list. -/
theorem C10_empty_counts_reported_none (data : PollWithExpiryPayload)
    (m : Message) (now : Int) (r : ResultsPayload) (hr : data.results = some r)
    (hc : r.answer_counts = []) :
    (Poll.from_data data m now).counts = some [] ∧
    (Poll.from_data data m now).answer_counts = none := by
  have hcounts : (Poll.from_data data m now).counts = some [] := by
    unfold Poll.from_data
    rw [hr]
    simp [hc]
  refine ⟨hcounts, ?_⟩
  unfold Poll.answer_counts
  rw [hcounts]
  rfl

/-- **C10** witness: the concrete payload `exPayloadEmptyCounts`. -/
theorem C10_empty_counts_reported_none_witness :
    (Poll.from_data exPayloadEmptyCounts exMessage 0).counts = some [] ∧
    (Poll.from_data exPayloadEmptyCounts exMessage 0).answer_counts = none :=
  C10_empty_counts_reported_none exPayloadEmptyCounts exMessage 0
    { is_finalized := true, answer_counts := [] } rfl rfl

/-- What `_to_dict` emits for an answer parsed from a payload: the text, and
the emoji with its id filtered through the truthiness test. -/
theorem PollAnswer.to_dict_init (a : PollAnswerWithIDPayload)
    (msg : Option Message) :
    (PollAnswer.init a msg).to_dict =
      { text := a.poll_media.text,
        emoji := a.poll_media.emoji.map (fun ep =>
          { name := ep.name,
            id := match ep.id with
                  | some i => if i ≠ 0 then some i else none
                  | none => none }) } := by
  unfold PollAnswer.to_dict PollAnswer.emoji PollAnswer.text PollAnswer.init
  cases a.poll_media.emoji <;> rfl

/-- Serializing a poll reconstructed from a payload, in closed form. -/
theorem Poll.to_dict_from_data (data : PollWithExpiryPayload) (m : Message)
    (now : Int) :
    (Poll.from_data data m now).to_dict =
      { allow_multiselect := data.allow_multiselect.getD false,
        question := { text := data.question.text },
        duration := 1,
        layout_type := (try_enum (data.layout_type.getD 1)).value,
        answers := data.answers.map (fun a =>
          { poll_media := (PollAnswer.init a (some m)).to_dict }) } := by
  unfold Poll.from_data Poll.to_dict Poll.answers
  cases data.results <;> simp [Poll.init, List.map_map, Function.comp]

/-- **C3** counterexample: the payload `exPayloadZeroEmoji` carries an answer
emoji with id `0`; the round trip drops that id (`if self.emoji.id:` is
falsy at `0`), so the answer's emoji is not preserved. -/
theorem C3_counterexample :
    (Poll.from_data exPayloadZeroEmoji exMessage 0).to_dict.answers.map
        (fun a => a.poll_media.emoji.map (fun e => (e.id, e.name))) ≠
      exPayloadZeroEmoji.answers.map
        (fun a => a.poll_media.emoji.map (fun e => (e.id, e.name))) ∧
    (Poll.from_data exPayloadZeroEmoji exMessage 0).to_dict.answers.map
        (fun a => a.poll_media.emoji.map (fun e => (e.id, e.name))) =
      [some (none, "x")] ∧
    exPayloadZeroEmoji.answers.map
        (fun a => a.poll_media.emoji.map (fun e => (e.id, e.name))) =
      [some (some 0, "x")] := by
  refine ⟨?_, rfl, rfl⟩
  decide

/-- **C3** (amended): for every inbound payload whose answer emoji ids,
where present, are nonzero, serializing the reconstructed poll preserves the
question text, the multiselect flag, and each answer's text and emoji in
order; and the outbound payload is independent of the inbound answer ids
(no answer id is emitted).  An inbound emoji with id `0` is the one
exception: the serializer's truthiness test drops its id. -/
theorem C3_round_trip (data : PollWithExpiryPayload) (m : Message) (now : Int)
    (f : Int → Int)
    (hz : ∀ a ∈ data.answers, ∀ e, a.poll_media.emoji = some e →
      e.id ≠ some 0) :
    (Poll.from_data data m now).to_dict.question.text = data.question.text ∧
    (Poll.from_data data m now).to_dict.allow_multiselect =
      data.allow_multiselect.getD false ∧
    (Poll.from_data data m now).to_dict.answers.map
        (fun a => a.poll_media.text) =
      data.answers.map (fun a => a.poll_media.text) ∧
    (Poll.from_data data m now).to_dict.answers.map
        (fun a => a.poll_media.emoji.map (fun e => (e.id, e.name))) =
      data.answers.map
        (fun a => a.poll_media.emoji.map (fun e => (e.id, e.name))) ∧
    (Poll.from_data (data.withAnswerIds f) m now).to_dict =
      (Poll.from_data data m now).to_dict := by
  rw [Poll.to_dict_from_data, Poll.to_dict_from_data]
  refine ⟨rfl, rfl, ?_, ?_, ?_⟩
  · simp [List.map_map, Function.comp, PollAnswer.to_dict_init]
  · simp only [List.map_map]
    refine List.map_congr_left (fun a ha => ?_)
    simp only [Function.comp_apply]
    rw [PollAnswer.to_dict_init]
    cases he : a.poll_media.emoji with
    | none => rfl
    | some ep =>
        have hid := hz a ha ep he
        cases hep : ep.id with
        | none => simp [hep]
        | some i =>
            have hi : i ≠ 0 := by
              intro h0
              exact hid (by rw [hep, h0])
            simp [hep, hi]
  · unfold PollWithExpiryPayload.withAnswerIds
    simp [List.map_map, Function.comp, PollAnswer.to_dict_init]

/-- **C3** witness: the payload `exPayloadFull` (a custom emoji with id 5
and an emoji-less answer) satisfies the nonzero-id hypothesis, and the round
trip preserves its fields; shifting every inbound answer id by one leaves
the outbound payload unchanged. -/
theorem C3_round_trip_witness :
    (Poll.from_data exPayloadFull exMessage 0).to_dict.question.text =
      exPayloadFull.question.text ∧
    (Poll.from_data exPayloadFull exMessage 0).to_dict.allow_multiselect =
      exPayloadFull.allow_multiselect.getD false ∧
    (Poll.from_data exPayloadFull exMessage 0).to_dict.answers.map
        (fun a => a.poll_media.text) =
      exPayloadFull.answers.map (fun a => a.poll_media.text) ∧
    (Poll.from_data exPayloadFull exMessage 0).to_dict.answers.map
        (fun a => a.poll_media.emoji.map (fun e => (e.id, e.name))) =
      exPayloadFull.answers.map
        (fun a => a.poll_media.emoji.map (fun e => (e.id, e.name))) ∧
    (Poll.from_data (exPayloadFull.withAnswerIds (fun i => i + 1))
        exMessage 0).to_dict =
      (Poll.from_data exPayloadFull exMessage 0).to_dict :=
  C3_round_trip exPayloadFull exMessage 0 (fun i => i + 1) (by decide)

/-- `add_answer` changes only the backing answers list: it appends the
answer built by `from_params` with id one past the current count and the
poll's message back-reference, and hands back the poll. -/
theorem Poll.add_answer_eq (p : Poll) (t : String) (e : Option EmojiInput) :
    p.add_answer t e = { p with answersList := p.answersList ++
      [PollAnswer.from_params ((p.answersList.length : Int) + 1) t e
        p.message] } :=
  rfl

/-- Unfolding one chained call. -/
theorem Poll.addAnswers_cons (p : Poll) (pr : String × Option EmojiInput)
    (ps : List (String × Option EmojiInput)) :
    p.addAnswers (pr :: ps) = (p.add_answer pr.1 pr.2).addAnswers ps :=
  rfl

/-- The backing list after chained `add_answer` calls. -/
theorem Poll.addAnswers_answersList (ps : List (String × Option EmojiInput)) :
    ∀ p : Poll, (p.addAnswers ps).answersList =
      p.answersList ++ expectedAnswers p.message p.answersList.length ps := by
  induction ps with
  | nil => intro p; simp [Poll.addAnswers, expectedAnswers]
  | cons pr ps ih =>
      intro p
      rw [Poll.addAnswers_cons, ih, Poll.add_answer_eq]
      simp [expectedAnswers]

/-- Chained `add_answer` calls leave every field but the answers list
unchanged (the calls accumulate on the same poll). -/
theorem Poll.addAnswers_fields (ps : List (String × Option EmojiInput)) :
    ∀ p : Poll, (p.addAnswers ps).question = p.question ∧
      (p.addAnswers ps).duration = p.duration ∧
      (p.addAnswers ps).multiselect = p.multiselect ∧
      (p.addAnswers ps).layout_type = p.layout_type ∧
      (p.addAnswers ps).message = p.message ∧
      (p.addAnswers ps).expiry = p.expiry := by
  induction ps with
  | nil => intro p; exact ⟨rfl, rfl, rfl, rfl, rfl, rfl⟩
  | cons pr ps ih => intro p; exact ih (p.add_answer pr.1 pr.2)

/-- `expectedAnswers` produces one answer per parameter pair. -/
theorem expectedAnswers_length (msg : Option Message)
    (ps : List (String × Option EmojiInput)) :
    ∀ k : Nat, (expectedAnswers msg k ps).length = ps.length := by
  induction ps with
  | nil => intro k; rfl
  | cons pr ps ih =>
      intro k
      simp [expectedAnswers, ih (k + 1)]

/-- The ids of the answers appended after `k` existing ones are
`k+1, ..., k+n`. -/
theorem expectedAnswers_map_id (msg : Option Message)
    (ps : List (String × Option EmojiInput)) :
    ∀ k : Nat, (expectedAnswers msg k ps).map PollAnswer.id =
      (List.range' (k + 1) ps.length).map Int.ofNat := by
  induction ps with
  | nil => intro k; rfl
  | cons pr ps ih =>
      intro k
      rw [show (pr :: ps).length = ps.length + 1 from rfl, List.range'_succ]
      simp only [expectedAnswers, List.map_cons]
      rw [ih (k + 1)]
      rfl

/-- Element lookup in `expectedAnswers`. -/
theorem expectedAnswers_getElem? (msg : Option Message)
    (ps : List (String × Option EmojiInput)) :
    ∀ k i : Nat, (expectedAnswers msg k ps)[i]? =
      (ps[i]?).map (fun pr =>
        PollAnswer.from_params (((k + i : Nat) : Int) + 1) pr.1 pr.2 msg) := by
  induction ps with
  | nil => intro k i; cases i <;> rfl
  | cons pr ps ih =>
      intro k i
      cases i with
      | zero => simp [expectedAnswers]
      | succ j =>
          simp only [expectedAnswers, List.getElem?_cons_succ]
          rw [ih (k + 1) j]
          have h : k + 1 + j = k + (j + 1) := by omega
          rw [h]

/-- `get_answer` at a positive in-range id is plain list lookup at the
1-based position. -/
theorem Poll.get_answer_pos (p : Poll) (k : Nat) (hk1 : 1 ≤ k)
    (hkn : k ≤ p.answersList.length) :
    p.get_answer (k : Int) = p.answersList[k - 1]? := by
  unfold Poll.get_answer pyIndex pyIndexNorm Poll.answers
  rw [if_neg (by omega), if_neg (by omega), if_pos (by omega)]
  congr 1
  omega

/-- **C4**: chaining `add_answer` n times on a freshly constructed poll
yields answers whose ids are `1..n` in call order; the k-th appended answer
is exactly the one `from_params` builds with id k — the answer count before
that call plus one — and the fresh poll's `None` message back-reference; the
chain accumulates on the same poll (question, duration, multiselect, layout,
message and expiry are untouched, which is what makes the fluent chaining
sound); and for `1 ≤ k ≤ n`, `get_answer k` returns the k-th added
answer. -/
theorem C4_add_answer_chain (q : String) (d : Int) (ms : Bool)
    (lt : PollLayoutType) (now : Int)
    (ps : List (String × Option EmojiInput)) (k : Nat)
    (hk1 : 1 ≤ k) (hkn : k ≤ ps.length) :
    ((Poll.init q d ms lt now).addAnswers ps).answersList.map PollAnswer.id =
      (List.range' 1 ps.length).map Int.ofNat ∧
    ((Poll.init q d ms lt now).addAnswers ps).answersList[k - 1]? =
      (ps[k - 1]?).map (fun pr =>
        PollAnswer.from_params (k : Int) pr.1 pr.2 none) ∧
    (((Poll.init q d ms lt now).addAnswers ps).answersList[k - 1]?).isSome ∧
    ((Poll.init q d ms lt now).addAnswers ps).get_answer (k : Int) =
      ((Poll.init q d ms lt now).addAnswers ps).answersList[k - 1]? ∧
    ((Poll.init q d ms lt now).addAnswers ps).question = q ∧
    ((Poll.init q d ms lt now).addAnswers ps).duration = d ∧
    ((Poll.init q d ms lt now).addAnswers ps).multiselect = ms ∧
    ((Poll.init q d ms lt now).addAnswers ps).layout_type = lt ∧
    ((Poll.init q d ms lt now).addAnswers ps).message = none ∧
    ((Poll.init q d ms lt now).addAnswers ps).expiry = now + d * 3600 := by
  have hlist := Poll.addAnswers_answersList ps (Poll.init q d ms lt now)
  have hinit : (Poll.init q d ms lt now).answersList = [] := rfl
  have hmsg : (Poll.init q d ms lt now).message = none := rfl
  rw [hinit, hmsg, List.nil_append, List.length_nil] at hlist
  have hfields := Poll.addAnswers_fields ps (Poll.init q d ms lt now)
  have hlen : ((Poll.init q d ms lt now).addAnswers ps).answersList.length =
      ps.length := by
    rw [hlist, expectedAnswers_length]
  refine ⟨?_, ?_, ?_, ?_, hfields.1, hfields.2.1, hfields.2.2.1,
    hfields.2.2.2.1, hfields.2.2.2.2.1, hfields.2.2.2.2.2⟩
  · rw [hlist]
    exact expectedAnswers_map_id none ps 0
  · rw [hlist, expectedAnswers_getElem? none ps 0 (k - 1)]
    have h : (((0 + (k - 1) : Nat)) : Int) + 1 = (k : Int) := by omega
    rw [h]
  · rw [hlist, expectedAnswers_getElem? none ps 0 (k - 1)]
    have h : k - 1 < ps.length := by omega
    simp [List.getElem?_eq_getElem h]
  · rw [Poll.get_answer_pos _ k hk1 (by omega)]

/-- **C4** witness: two chained `add_answer` calls on a fresh poll, checked
at `k = 2`. -/
theorem C4_add_answer_chain_witness :
    ((Poll.init "Q" 1 false .default 0).addAnswers
        [("A", none), ("B", none)]).answersList.map PollAnswer.id =
      (List.range' 1 [("A", (none : Option EmojiInput)),
        ("B", none)].length).map Int.ofNat ∧
    ((Poll.init "Q" 1 false .default 0).addAnswers
        [("A", none), ("B", none)]).answersList[2 - 1]? =
      (([("A", (none : Option EmojiInput)), ("B", none)])[2 - 1]?).map
        (fun pr => PollAnswer.from_params ((2 : Nat) : Int) pr.1 pr.2 none) ∧
    (((Poll.init "Q" 1 false .default 0).addAnswers
        [("A", none), ("B", none)]).answersList[2 - 1]?).isSome ∧
    ((Poll.init "Q" 1 false .default 0).addAnswers
        [("A", none), ("B", none)]).get_answer ((2 : Nat) : Int) =
      ((Poll.init "Q" 1 false .default 0).addAnswers
        [("A", none), ("B", none)]).answersList[2 - 1]? ∧
    ((Poll.init "Q" 1 false .default 0).addAnswers
        [("A", none), ("B", none)]).question = "Q" ∧
    ((Poll.init "Q" 1 false .default 0).addAnswers
        [("A", none), ("B", none)]).duration = 1 ∧
    ((Poll.init "Q" 1 false .default 0).addAnswers
        [("A", none), ("B", none)]).multiselect = false ∧
    ((Poll.init "Q" 1 false .default 0).addAnswers
        [("A", none), ("B", none)]).layout_type = .default ∧
    ((Poll.init "Q" 1 false .default 0).addAnswers
        [("A", none), ("B", none)]).message = none ∧
    ((Poll.init "Q" 1 false .default 0).addAnswers
        [("A", none), ("B", none)]).expiry = 0 + 1 * 3600 :=
  C4_add_answer_chain "Q" 1 false .default 0 [("A", none), ("B", none)] 2
    (by decide) (by decide)

/-- Allocation does not disturb existing cells. -/
theorem ListStore.read_alloc_old {α : Type} (s : ListStore α) (l : List α)
    (r : Nat) (hr : r < s.length) :
    (s.alloc l).1.read r = s.read r := by
  unfold ListStore.alloc ListStore.read
  rw [List.getElem?_append]
  rw [if_pos hr]

/-- The freshly allocated cell holds the requested contents. -/
theorem ListStore.read_alloc_new {α : Type} (s : ListStore α) (l : List α) :
    (s.alloc l).1.read (s.alloc l).2 = l := by
  unfold ListStore.alloc ListStore.read
  rw [List.getElem?_concat_length]
  rfl

/-- Writing one cell leaves every other cell unchanged. -/
theorem ListStore.read_write_ne {α : Type} (s : ListStore α) (w r : Nat)
    (l : List α) (h : w ≠ r) :
    (s.write w l).read r = s.read r := by
  unfold ListStore.write ListStore.read
  rw [List.getElem?_set_ne h]

/-- The list contents a caller of the `answers` accessor observes. -/
def PollRefs.answersView (p : PollRefs) (s : ListStore PollAnswer) :
    List PollAnswer :=
  ((p.answersAccessor s).1).read (p.answersAccessor s).2

/-- The value a caller of the `answer_counts` accessor observes: `None`, or
the contents of the returned list object. -/
def PollRefs.answerCountsView (p : PollRefs)
    (s : ListStore PollAnswerCount) : Option (List PollAnswerCount) :=
  match p.answerCountsAccessor s with
  | (s', some r) => some (s'.read r)
  | (_, none) => none

/-- The `answers` accessor observes exactly the backing contents. -/
theorem PollRefs.answersView_eq (p : PollRefs) (s : ListStore PollAnswer) :
    p.answersView s = s.read p.answersRef :=
  ListStore.read_alloc_new s (s.read p.answersRef)

/-- The `answer_counts` accessor observes the backing contents, with an
empty backing list reported as `None`. -/
theorem PollRefs.answerCountsView_eq (p : PollRefs)
    (s : ListStore PollAnswerCount) (r : Nat) (h : p.countsRef = some r) :
    p.answerCountsView s =
      if (s.read r).isEmpty then none else some (s.read r) := by
  unfold PollRefs.answerCountsView PollRefs.answerCountsAccessor
  rw [h]
  by_cases hc : (s.read r).isEmpty
  · simp [hc]
  · simp only [hc, Bool.false_eq_true, if_false]
    rw [ListStore.read_alloc_new]

/-- **C8**: both accessors return fresh copies of the backing lists.  After
calling an accessor and then mutating the returned list object arbitrarily,
the poll's backing cell is unchanged and a subsequent accessor call still
observes the original contents; the `answer_counts` accessor, on a present
non-empty backing list, hands out a freshly allocated reference (the
returned reference is the new cell at the end of the store, never the
backing cell). -/
theorem C8_accessors_return_copies (p : PollRefs) (sA : ListStore PollAnswer)
    (sC : ListStore PollAnswerCount) (lA : List PollAnswer)
    (lC : List PollAnswerCount) (rC : Nat)
    (hA : p.answersRef < sA.length) (hC : p.countsRef = some rC)
    (hrC : rC < sC.length) (hne : (sC.read rC).isEmpty = false) :
    ((p.answersAccessor sA).1.write (p.answersAccessor sA).2 lA).read
        p.answersRef = sA.read p.answersRef ∧
    p.answersView
        ((p.answersAccessor sA).1.write (p.answersAccessor sA).2 lA) =
      p.answersView sA ∧
    (p.answersAccessor sA).2 ≠ p.answersRef ∧
    (p.answerCountsAccessor sC).2 = some sC.length ∧
    ((p.answerCountsAccessor sC).1.write sC.length lC).read rC =
      sC.read rC ∧
    p.answerCountsView ((p.answerCountsAccessor sC).1.write sC.length lC) =
      p.answerCountsView sC := by
  have e2 : (p.answersAccessor sA).2 = sA.length := rfl
  have c1 : ((p.answersAccessor sA).1.write (p.answersAccessor sA).2 lA).read
      p.answersRef = sA.read p.answersRef := by
    rw [e2, ListStore.read_write_ne _ _ _ _ (by omega)]
    exact ListStore.read_alloc_old sA _ p.answersRef hA
  have hacc : p.answerCountsAccessor sC =
      ((sC.alloc (sC.read rC)).1, some (sC.alloc (sC.read rC)).2) := by
    unfold PollRefs.answerCountsAccessor
    rw [hC]
    simp [hne]
  have c4 : ((p.answerCountsAccessor sC).1.write sC.length lC).read rC =
      sC.read rC := by
    rw [hacc, ListStore.read_write_ne _ _ _ _ (by omega)]
    exact ListStore.read_alloc_old sC _ rC hrC
  refine ⟨c1, ?_, ?_, ?_, c4, ?_⟩
  · rw [PollRefs.answersView_eq, PollRefs.answersView_eq]
    exact c1
  · rw [e2]
    omega
  · rw [hacc]
    rfl
  · rw [PollRefs.answerCountsView_eq p _ rC hC,
      PollRefs.answerCountsView_eq p sC rC hC, c4]

/-- **C8** witness: a store with one two-element answers list and one
one-element counts list behind a poll pointing at both. -/
theorem C8_accessors_return_copies_witness :
    ((exRefs.answersAccessor exStoreA).1.write
        (exRefs.answersAccessor exStoreA).2 []).read exRefs.answersRef =
      exStoreA.read exRefs.answersRef ∧
    exRefs.answersView
        ((exRefs.answersAccessor exStoreA).1.write
          (exRefs.answersAccessor exStoreA).2 []) =
      exRefs.answersView exStoreA ∧
    (exRefs.answersAccessor exStoreA).2 ≠ exRefs.answersRef ∧
    (exRefs.answerCountsAccessor exStoreC).2 = some exStoreC.length ∧
    ((exRefs.answerCountsAccessor exStoreC).1.write exStoreC.length []).read
        0 = exStoreC.read 0 ∧
    exRefs.answerCountsView
        ((exRefs.answerCountsAccessor exStoreC).1.write exStoreC.length []) =
      exRefs.answerCountsView exStoreC :=
  C8_accessors_return_copies exRefs exStoreA exStoreC [] [] 0
    (by decide) rfl (by decide) (by decide)

end PollSpec
